import Mathlib

/-!
Verification of the BKK Traffic Tracker ingest→publish→consume→persist
pipeline, shallowly embedded from the repository sources:
`src/data_collection.py` (Poller / Decoder / Publisher),
`src/database/database_consumer.py` (Subscriber-Committer / Store Writer) and
`src/database/db_queries.py` (the SQL upsert).  Python floats are modelled as
rationals, machine timestamps as naturals, and each fallible operation either
returns an `Option` or is driven by an explicit failure oracle.
-/

set_option maxHeartbeats 8000000

/-! ## Timestamps

`datetime.fromtimestamp(ts, tz=timezone.utc)` followed by
`.strftime("%Y-%m-%d %H:%M:%S")` is used by the Decoder
(`src/data_collection.py:68`), and `datetime.strptime(s, "%Y-%m-%d %H:%M:%S")`
by the Store Writer (`src/database/database_consumer.py:80`).  The civil-date
conversion below computes the same year/month/day as CPython's
`datetime.fromtimestamp` for the UTC zone (days measured from 1970-01-01). -/

structure DateTime where
  year : ℕ
  month : ℕ
  day : ℕ
  hour : ℕ
  minute : ℕ
  second : ℕ
deriving DecidableEq

/-- Gregorian date of day number `z` counted from 1970-01-01 (UTC),
the conversion performed inside `datetime.fromtimestamp`. -/
def civilFromDays (z : ℕ) : ℕ × ℕ × ℕ :=
  let zz := z + 719468
  let era := zz / 146097
  let doe := zz % 146097
  let yoe := (doe - doe / 1460 + doe / 36524 - doe / 146096) / 365
  let y := yoe + era * 400
  let doy := doe - (365 * yoe + yoe / 4 - yoe / 100)
  let mp := (5 * doy + 2) / 153
  let d := doy - (153 * mp + 2) / 5 + 1
  let m := if mp < 10 then mp + 3 else mp - 9
  (if m ≤ 2 then y + 1 else y, m, d)

/-- `datetime.fromtimestamp(ts, tz=timezone.utc)` at second precision:
the UTC civil date and time of an epoch-seconds value. -/
def epochToDateTime (ts : ℕ) : DateTime :=
  let c := civilFromDays (ts / 86400)
  let secs := ts % 86400
  ⟨c.1, c.2.1, c.2.2, secs / 3600, secs % 3600 / 60, secs % 60⟩

/-- Gregorian leap-year test (as in `datetime`). -/
def isLeap (y : ℕ) : Bool :=
  (y % 4 == 0 && y % 100 != 0) || y % 400 == 0

/-- Number of days of month `m` of year `y` (as validated by the `datetime`
constructor that `strptime` calls). -/
def daysInMonth (y m : ℕ) : ℕ :=
  if m = 2 then (if isLeap y then 29 else 28)
  else if m = 4 ∨ m = 6 ∨ m = 9 ∨ m = 11 then 30
  else 31

/-- The ASCII digit character for `n < 10`. -/
def digitChar (n : ℕ) : Char := Char.ofNat (48 + n)

/-- Numeric value of an ASCII digit character. -/
def digitVal (c : Char) : ℕ := c.toNat - 48

/-- Two-digit zero-padded rendering (strftime `%m`, `%d`, `%H`, `%M`, `%S`). -/
def pad2 (n : ℕ) : List Char := [digitChar (n / 10 % 10), digitChar (n % 10)]

/-- Four-digit zero-padded rendering (strftime `%Y` for years up to 9999). -/
def pad4 (n : ℕ) : List Char :=
  [digitChar (n / 1000 % 10), digitChar (n / 100 % 10),
   digitChar (n / 10 % 10), digitChar (n % 10)]

/-- `dt.strftime("%Y-%m-%d %H:%M:%S")`. -/
def formatDateTime (dt : DateTime) : String :=
  String.mk (pad4 dt.year ++ '-' :: pad2 dt.month ++ '-' :: pad2 dt.day ++
    ' ' :: pad2 dt.hour ++ ':' :: pad2 dt.minute ++ ':' :: pad2 dt.second)

/-- The Decoder's timestamp rendering
(`src/data_collection.py:68-70`): epoch seconds → UTC →
`"%Y-%m-%d %H:%M:%S"`. -/
def formatTimestamp (ts : ℕ) : String :=
  formatDateTime (epochToDateTime ts)

/-- `datetime.strptime(s, "%Y-%m-%d %H:%M:%S")`
(`src/database/database_consumer.py:80-82`): the fixed-shape text must be
digits and separators, and the resulting fields must pass the range
validation of the `datetime` constructor; any violation raises, modelled as
`none`. -/
def parseTimestamp (s : String) : Option DateTime :=
  match s.data with
  | [y3, y2, y1, y0, c1, m1, m0, c2, d1, d0, c3, h1, h0, c4, n1, n0, c5, s1, s0] =>
      if y3.isDigit ∧ y2.isDigit ∧ y1.isDigit ∧ y0.isDigit ∧
          m1.isDigit ∧ m0.isDigit ∧ d1.isDigit ∧ d0.isDigit ∧
          h1.isDigit ∧ h0.isDigit ∧ n1.isDigit ∧ n0.isDigit ∧
          s1.isDigit ∧ s0.isDigit ∧
          c1 = '-' ∧ c2 = '-' ∧ c3 = ' ' ∧ c4 = ':' ∧ c5 = ':' then
        let y := 1000 * digitVal y3 + 100 * digitVal y2 + 10 * digitVal y1 + digitVal y0
        let mo := 10 * digitVal m1 + digitVal m0
        let da := 10 * digitVal d1 + digitVal d0
        let hh := 10 * digitVal h1 + digitVal h0
        let mi := 10 * digitVal n1 + digitVal n0
        let se := 10 * digitVal s1 + digitVal s0
        if 1 ≤ y ∧ y ≤ 9999 ∧ 1 ≤ mo ∧ mo ≤ 12 ∧ 1 ≤ da ∧
            da ≤ daysInMonth y mo ∧ hh ≤ 23 ∧ mi ≤ 59 ∧ se ≤ 59 then
          some ⟨y, mo, da, hh, mi, se⟩
        else none
      else none
  | _ => none

/-! ## Feed model and Decoder (`src/data_collection.py`) -/

structure TripDescriptor where
  trip_id : String
  route_id : String
deriving DecidableEq

structure Position where
  latitude : ℚ
  longitude : ℚ
  bearing : ℚ
  speed : ℚ
deriving DecidableEq

structure VehicleDescriptor where
  id : String
  label : String
  license_plate : String
  wheelchair_accessible : ℕ
deriving DecidableEq

/-- One GTFS-realtime vehicle-position sub-record (`entity.vehicle`). -/
structure VehiclePosition where
  trip : TripDescriptor
  position : Position
  current_stop_sequence : ℕ
  current_status : ℕ
  timestamp : ℕ
  stop_id : String
  vehicle : VehicleDescriptor
deriving DecidableEq

/-- A feed entity; `vehicle = none` models `entity.HasField("vehicle")`
being false. -/
structure FeedEntity where
  vehicle : Option VehiclePosition
deriving DecidableEq

/-- The parsed feed envelope; `initialized` models `feed.IsInitialized()`. -/
structure FeedMessage where
  initialized : Bool
  entity : List FeedEntity
deriving DecidableEq

/-- The dictionary built by `extract_vehicle_info`
(`src/data_collection.py:48-77`), which is also the wire shape of one
published observation.  Note that `wheelchair_accessible` carries the
feed-native numeric code unchanged and `timestamp` is the formatted string. -/
structure VehicleInfo where
  trip_id : String
  route_id : String
  latitude : ℚ
  longitude : ℚ
  bearing : ℚ
  speed : ℚ
  current_stop_sequence : ℕ
  current_status : ℕ
  timestamp : String
  stop_id : String
  vehicle_id : String
  vehicle_label : String
  license_plate : String
  wheelchair_accessible : ℕ
deriving DecidableEq

/-- `extract_vehicle_info` (`src/data_collection.py:48-77`):
returns `None` for the reserved sentinel `route_id == "9999"`, otherwise the
observation dictionary with the speed converted by `* 3.6` and the timestamp
formatted as UTC `"%Y-%m-%d %H:%M:%S"`. -/
def extract_vehicle_info (vehicle : VehiclePosition) : Option VehicleInfo :=
  if vehicle.trip.route_id = "9999" then none
  else
    some
      { trip_id := vehicle.trip.trip_id
        route_id := vehicle.trip.route_id
        latitude := vehicle.position.latitude
        longitude := vehicle.position.longitude
        bearing := vehicle.position.bearing
        speed := vehicle.position.speed * 3.6
        current_stop_sequence := vehicle.current_stop_sequence
        current_status := vehicle.current_status
        timestamp := formatTimestamp vehicle.timestamp
        stop_id := vehicle.stop_id
        vehicle_id := vehicle.vehicle.id
        vehicle_label := vehicle.vehicle.label
        license_plate := vehicle.vehicle.license_plate
        wheelchair_accessible := vehicle.vehicle.wheelchair_accessible }

/-- The decode loop of `fetch_data` (`src/data_collection.py:28-41`): when the
envelope is initialized, collect `extract_vehicle_info` of every entity that
carries a vehicle sub-record, skipping entities without one and observations
the extractor discards; otherwise log and return the empty list. -/
def decodeFeed (feed : FeedMessage) : List VehicleInfo :=
  if feed.initialized then
    feed.entity.filterMap (fun e => e.vehicle.bind extract_vehicle_info)
  else []

/-- Outcome of the HTTP GET and of `FeedMessage.ParseFromString` on its body:
either the request raises `requests.exceptions.RequestException`, or a body is
received whose protobuf parse yields an envelope (`some feed`) or raises
`DecodeError` (`none`). -/
inductive FetchResponse where
  | requestError
  | payload (parsed : Option FeedMessage)
deriving DecidableEq

/-- How one call of `fetch_data` terminates: a normal return, or an exception
escaping the function. -/
inductive FetchResult where
  | returns (data : List VehicleInfo)
  | raises
deriving DecidableEq

/-- `fetch_data` (`src/data_collection.py:19-45`): its `try` block covers the
request and the parse, but the only handler is
`except requests.exceptions.RequestException`, which returns `[]`.  A protobuf
`DecodeError` raised by `ParseFromString` matches no handler and escapes. -/
def fetch_data : FetchResponse → FetchResult
  | .requestError => .returns []
  | .payload none => .raises
  | .payload (some feed) => .returns (decodeFeed feed)

/-- The Poller loop body `main` (`src/data_collection.py:96-105`) wraps
`fetch_data()` in no exception handler: the loop continues after a normal
return and is terminated by an escaping exception. -/
def pollerLoopContinues : FetchResult → Bool
  | .returns _ => true
  | .raises => false

/-! ## Wire encoding (`send_to_kafka`, `src/data_collection.py:80-93`) -/

/-- JSON values, the image of `json.dumps`. -/
inductive Json where
  | null
  | bool (b : Bool)
  | num (q : ℚ)
  | str (s : String)
  | arr (xs : List Json)
  | obj (fields : List (String × Json))

/-- `json.dumps(vehicle)` of the dictionary built by `extract_vehicle_info`,
preserving the dictionary's insertion order.  Python ints and floats both
serialize as JSON numbers; in particular the `wheelchair_accessible` member is
the feed-native numeric code, not a JSON boolean. -/
def vehicleMessageValue (info : VehicleInfo) : Json :=
  .obj
    [("trip_id", .str info.trip_id),
     ("route_id", .str info.route_id),
     ("latitude", .num info.latitude),
     ("longitude", .num info.longitude),
     ("bearing", .num info.bearing),
     ("speed", .num info.speed),
     ("current_stop_sequence", .num info.current_stop_sequence),
     ("current_status", .num info.current_status),
     ("timestamp", .str info.timestamp),
     ("stop_id", .str info.stop_id),
     ("vehicle_id", .str info.vehicle_id),
     ("vehicle_label", .str info.vehicle_label),
     ("license_plate", .str info.license_plate),
     ("wheelchair_accessible", .num info.wheelchair_accessible)]

/-- Member lookup in a JSON object. -/
def jsonField (j : Json) (k : String) : Option Json :=
  match j with
  | .obj fs => fs.lookup k
  | _ => none

/-- The member names of a JSON object, in order. -/
def jsonFieldNames : Json → List String
  | .obj fs => fs.map Prod.fst
  | _ => []

/-- Whether a JSON value is a boolean. -/
def Json.isBool : Json → Bool
  | .bool _ => true
  | _ => false

/-- Whether a JSON value is a number. -/
def Json.isNum : Json → Bool
  | .num _ => true
  | _ => false

/-! ## Store Writer (`src/database/database_consumer.py`, `db_queries.py`) -/

/-- One row of the `vehicle_data` table (`CREATE_VEHICLE_DATA_TABLE`,
`src/database/db_queries.py:9-27`); primary key (`vehicle_id`, `timestamp`). -/
structure Row where
  trip_id : String
  route_id : String
  latitude : ℚ
  longitude : ℚ
  bearing : ℚ
  speed : ℚ
  current_stop_sequence : ℕ
  current_status : ℕ
  timestamp : DateTime
  stop_id : String
  vehicle_id : String
  vehicle_label : String
  license_plate : String
  wheelchair_accessible : Bool
deriving DecidableEq

/-- The durable `vehicle_data` table. -/
abbrev Table := List Row

/-- Whether a stored row has the given primary key. -/
def keyMatches (r : Row) (vid : String) (ts : DateTime) : Bool :=
  r.vehicle_id == vid && r.timestamp == ts

/-- The `DO UPDATE SET` list of `INSERT_VEHICLE_DATA`
(`src/database/db_queries.py:29-47`): it overwrites latitude, longitude,
bearing, speed, current_stop_sequence, current_status, stop_id, vehicle_label,
license_plate and wheelchair_accessible with the excluded (new) values; the
non-key columns `trip_id` and `route_id` are absent from the list and keep the
stored row's values. -/
def applyConflictUpdate (old new : Row) : Row :=
  { old with
    latitude := new.latitude
    longitude := new.longitude
    bearing := new.bearing
    speed := new.speed
    current_stop_sequence := new.current_stop_sequence
    current_status := new.current_status
    stop_id := new.stop_id
    vehicle_label := new.vehicle_label
    license_plate := new.license_plate
    wheelchair_accessible := new.wheelchair_accessible }

/-- Executing `INSERT_VEHICLE_DATA` once: insert the row if no stored row has
its (`vehicle_id`, `timestamp`) key, otherwise apply the `ON CONFLICT DO
UPDATE` assignment to the conflicting row. -/
def upsertRow : Table → Row → Table
  | [], r => [r]
  | old :: rest, r =>
      if keyMatches old r.vehicle_id r.timestamp then
        applyConflictUpdate old r :: rest
      else old :: upsertRow rest r

/-- Primary-key lookup in the table. -/
def findRow : Table → String → DateTime → Option Row
  | [], _, _ => none
  | row :: rest, vid, ts =>
      if keyMatches row vid ts then some row else findRow rest vid ts

/-- The boolean derivation `True if vehicle["wheelchair_accessible"] == 2 else
False` (`src/database/database_consumer.py:76-78`). -/
def wheelchairFromCode (code : ℕ) : Bool :=
  if code = 2 then true else false

/-- The per-message work preceding the SQL execute inside
`insert_vehicle_data`'s loop (`src/database/database_consumer.py:74-103`):
derive the boolean, parse the timestamp (a `strptime` failure raises, i.e.
`none`), and assemble the parameter row in column order. -/
def rowOfMessage (v : VehicleInfo) : Option Row :=
  match parseTimestamp v.timestamp with
  | none => none
  | some dt =>
      some
        { trip_id := v.trip_id
          route_id := v.route_id
          latitude := v.latitude
          longitude := v.longitude
          bearing := v.bearing
          speed := v.speed
          current_stop_sequence := v.current_stop_sequence
          current_status := v.current_status
          timestamp := dt
          stop_id := v.stop_id
          vehicle_id := v.vehicle_id
          vehicle_label := v.vehicle_label
          license_plate := v.license_plate
          wheelchair_accessible := wheelchairFromCode v.wheelchair_accessible }

/-- The `for vehicle in vehicle_data` loop of `insert_vehicle_data`.  The
connection has `autocommit = True` (`src/database/db_utils.py:21-33`), so each
successful execute is durably committed at once.  `wf i` is the failure oracle
for the `i`-th `cursor.execute`; the first raising step (a `strptime` failure
or a failed execute) aborts the loop, leaving the table as accumulated so far.
The boolean records whether every write succeeded. -/
def insertLoop (wf : ℕ → Bool) : Table → ℕ → List VehicleInfo → Table × Bool
  | t, _, [] => (t, true)
  | t, i, v :: rest =>
      match rowOfMessage v with
      | none => (t, false)
      | some r => if wf i then (t, false) else insertLoop wf (upsertRow t r) (i + 1) rest

/-- `insert_vehicle_data` (`src/database/database_consumer.py:70-108`): if the
connection attempt fails, nothing happens; otherwise the write loop runs and
any exception in it is caught by the function's own `except` clause, printed,
and not re-raised.  The returned boolean is internal bookkeeping of whether
all writes succeeded — the Python function returns `None` either way, so its
caller cannot observe this flag. -/
def insert_vehicle_data (connOk : Bool) (wf : ℕ → Bool) (t : Table)
    (msgs : List VehicleInfo) : Table × Bool :=
  if connOk then insertLoop wf t 0 msgs else (t, false)

/-- The durable table state after the writes of the given messages have been
executed (and autocommitted) in order. -/
def appliedRows (t : Table) (msgs : List VehicleInfo) : Table :=
  msgs.foldl
    (fun acc v =>
      match rowOfMessage v with
      | some r => upsertRow acc r
      | none => acc) t

/-! ## Subscriber/Committer (`consume_kafka_messages`,
`src/database/database_consumer.py:111-146`) -/

/-- The decoded payload of one pulled message: `json.loads` raises
(`undecodable`), yields a single dict (normalized to a one-element list), or
yields a list. -/
inductive MessagePayload where
  | undecodable
  | single (v : VehicleInfo)
  | batch (vs : List VehicleInfo)
deriving DecidableEq

/-- The normalization `if isinstance(vehicle_data, dict): vehicle_data =
[vehicle_data]`, with `none` for a `json.JSONDecodeError`. -/
def payloadToList : MessagePayload → Option (List VehicleInfo)
  | .undecodable => none
  | .single v => some [v]
  | .batch vs => some vs

/-- Consumer-visible state: the durable table and the last committed offset
(`none` when nothing has been committed). -/
structure ConsumerState where
  table : Table
  committed : Option ℕ
deriving DecidableEq

/-- One message-processing iteration of `consume_kafka_messages`
(`src/database/database_consumer.py:132-141`): on a `JSONDecodeError` the
message is skipped with no commit; otherwise `insert_vehicle_data` is called
and then `consumer.commit(asynchronous=False)` runs unconditionally, because
`insert_vehicle_data` catches its own write failures and returns normally. -/
def consumeStep (connOk : Bool) (wf : ℕ → Bool) (st : ConsumerState)
    (offset : ℕ) (p : MessagePayload) : ConsumerState :=
  match payloadToList p with
  | none => st
  | some msgs =>
      { table := (insert_vehicle_data connOk wf st.table msgs).1
        committed := some offset }

/-! ## Sample data for witnesses and counterexamples -/

def sampleTrip : TripDescriptor := { trip_id := "T100", route_id := "7" }

def sentinelTrip : TripDescriptor := { trip_id := "T200", route_id := "9999" }

def samplePosition : Position :=
  { latitude := 47.5, longitude := 19.05, bearing := 90, speed := 10 }

def sampleDescriptor : VehicleDescriptor :=
  { id := "V1", label := "Bus 7", license_plate := "ABC-123",
    wheelchair_accessible := 2 }

/-- The scenario vehicle of the spec: native speed 10 m/s, epoch timestamp
1700000000, wheelchair code 2. -/
def sampleVehicle : VehiclePosition :=
  { trip := sampleTrip, position := samplePosition, current_stop_sequence := 5,
    current_status := 2, timestamp := 1700000000, stop_id := "S1",
    vehicle := sampleDescriptor }

def sentinelVehicle : VehiclePosition :=
  { sampleVehicle with trip := sentinelTrip }

def sampleFeed : FeedMessage :=
  { initialized := true,
    entity := [{ vehicle := some sentinelVehicle },
               { vehicle := some sampleVehicle },
               { vehicle := none }] }

/-- `extract_vehicle_info sampleVehicle` evaluates to exactly this record. -/
def sampleGoodInfo : VehicleInfo :=
  { trip_id := "T100", route_id := "7", latitude := 47.5, longitude := 19.05,
    bearing := 90, speed := 36, current_stop_sequence := 5, current_status := 2,
    timestamp := "2023-11-14 22:13:20", stop_id := "S1", vehicle_id := "V1",
    vehicle_label := "Bus 7", license_plate := "ABC-123",
    wheelchair_accessible := 2 }

/-- A second observation with a different primary key. -/
def sampleInfoB : VehicleInfo :=
  { sampleGoodInfo with vehicle_id := "V2", trip_id := "T300", speed := 18 }

/-- The row `insert_vehicle_data` derives from `sampleGoodInfo`. -/
def sampleStoredRow : Row :=
  { trip_id := "T100", route_id := "7", latitude := 47.5, longitude := 19.05,
    bearing := 90, speed := 36, current_stop_sequence := 5, current_status := 2,
    timestamp := ⟨2023, 11, 14, 22, 13, 20⟩, stop_id := "S1",
    vehicle_id := "V1", vehicle_label := "Bus 7", license_plate := "ABC-123",
    wheelchair_accessible := true }

/-- The row `insert_vehicle_data` derives from `sampleInfoB`. -/
def sampleStoredRowB : Row :=
  { sampleStoredRow with vehicle_id := "V2", trip_id := "T300", speed := 18 }

def rowA : Row := { sampleStoredRow with trip_id := "T1", route_id := "R1" }

def rowB : Row :=
  { sampleStoredRow with trip_id := "T2", route_id := "R2", speed := 20 }

/-! ## Evaluation lemmas for the sample data -/

/-- The spec's scenario: epoch 1700000000 renders as `2023-11-14 22:13:20`. -/
theorem formatTimestamp_sample : formatTimestamp 1700000000 = "2023-11-14 22:13:20" := by
  decide

theorem extract_vehicle_info_sample :
    extract_vehicle_info sampleVehicle = some sampleGoodInfo := by
  norm_num [extract_vehicle_info, sampleVehicle, sampleGoodInfo, sampleTrip,
    samplePosition, sampleDescriptor, formatTimestamp_sample]
  intro h
  exact absurd h (by decide)

theorem extract_vehicle_info_sentinel :
    extract_vehicle_info sentinelVehicle = none := by
  simp [extract_vehicle_info, sentinelVehicle, sentinelTrip]

theorem decodeFeed_sample : decodeFeed sampleFeed = [sampleGoodInfo] := by
  simp [decodeFeed, sampleFeed, List.filterMap, Option.bind,
    extract_vehicle_info_sentinel, extract_vehicle_info_sample]

theorem parseTimestamp_sample :
    parseTimestamp ("2023-11-14 22:13:20") = some ⟨2023, 11, 14, 22, 13, 20⟩ := by
  decide

theorem rowOfMessage_sample :
    rowOfMessage sampleGoodInfo = some sampleStoredRow := by
  simp [rowOfMessage, sampleGoodInfo, sampleStoredRow, parseTimestamp_sample,
    wheelchairFromCode]

/-! ## Correctness of the civil-date conversion

The two lemmas below establish the needed facts about the year-of-era and
day-of-year computation inside `civilFromDays` for one 400-year era. -/

theorem civil_start_le (doe : ℕ) (h : doe < 146097) :
    365 * ((doe - doe / 1460 + doe / 36524 - doe / 146096) / 365) +
          ((doe - doe / 1460 + doe / 36524 - doe / 146096) / 365) / 4 -
          ((doe - doe / 1460 + doe / 36524 - doe / 146096) / 365) / 100 ≤ doe ∧
      (doe - doe / 1460 + doe / 36524 - doe / 146096) / 365 ≤ 399 := by
  have hg : doe / 1460 ≤ 100 := by omega
  set g := doe / 1460 with hgdef
  interval_cases g <;>
    first
      | omega
      | (have he : doe / 36524 ≤ 4 := by omega
         set e := doe / 36524 with hedef
         interval_cases e <;> omega)

theorem civil_doy_le (doe : ℕ) (h : doe < 146097) :
    doe -
        (365 * ((doe - doe / 1460 + doe / 36524 - doe / 146096) / 365) +
          ((doe - doe / 1460 + doe / 36524 - doe / 146096) / 365) / 4 -
          ((doe - doe / 1460 + doe / 36524 - doe / 146096) / 365) / 100) ≤ 365 ∧
      (doe -
            (365 * ((doe - doe / 1460 + doe / 36524 - doe / 146096) / 365) +
              ((doe - doe / 1460 + doe / 36524 - doe / 146096) / 365) / 4 -
              ((doe - doe / 1460 + doe / 36524 - doe / 146096) / 365) / 100) = 365 →
        (((doe - doe / 1460 + doe / 36524 - doe / 146096) / 365 + 1) % 4 = 0 ∧
            ((doe - doe / 1460 + doe / 36524 - doe / 146096) / 365 + 1) % 100 ≠ 0) ∨
          (doe - doe / 1460 + doe / 36524 - doe / 146096) / 365 = 399) := by
  have hb : (doe - doe / 1460 + doe / 36524 - doe / 146096) / 365 ≤ 399 := by omega
  generalize ha : (doe - doe / 1460 + doe / 36524 - doe / 146096) / 365 = a at hb ⊢
  interval_cases a <;> omega

/-- Field ranges of `civilFromDays` on the day range of `datetime` years 1970
to 9999 (day 2932896 is 9999-12-31): the produced triple is a valid civil
date. -/
theorem civilFromDays_fields (z y m d : ℕ) (hz : z ≤ 2932896)
    (h : civilFromDays z = (y, m, d)) :
    1 ≤ y ∧ y ≤ 9999 ∧ 1 ≤ m ∧ m ≤ 12 ∧ 1 ≤ d ∧ d ≤ daysInMonth y m := by
  have h1 := civil_start_le ((z + 719468) % 146097) (Nat.mod_lt _ (by norm_num))
  have h2 := civil_doy_le ((z + 719468) % 146097) (Nat.mod_lt _ (by norm_num))
  simp only [civilFromDays, Prod.mk.injEq] at h
  obtain ⟨hy, hm, hd⟩ := h
  subst hy hm hd
  simp only [daysInMonth, isLeap, Bool.or_eq_true, Bool.and_eq_true,
    beq_iff_eq, bne_iff_ne]
  split_ifs <;> omega

/-- ASCII digit characters pass `Char.isDigit`. -/
theorem isDigit_digitChar (k : ℕ) (hk : k < 10) : (digitChar k).isDigit = true := by
  interval_cases k <;> decide

/-- `digitVal` recovers the digit rendered by `digitChar`. -/
theorem digitVal_digitChar (k : ℕ) (hk : k < 10) : digitVal (digitChar k) = k := by
  interval_cases k <;> decide

/-- No month has more than 31 days. -/
theorem daysInMonth_le (y m : ℕ) : daysInMonth y m ≤ 31 := by
  unfold daysInMonth
  split_ifs <;> omega

/-- Parsing inverts formatting on any valid civil date-time. -/
theorem parseTimestamp_formatDateTime (dt : DateTime)
    (h1 : 1 ≤ dt.year) (h2 : dt.year ≤ 9999)
    (h3 : 1 ≤ dt.month) (h4 : dt.month ≤ 12)
    (h5 : 1 ≤ dt.day) (h6 : dt.day ≤ daysInMonth dt.year dt.month)
    (h7 : dt.hour ≤ 23) (h8 : dt.minute ≤ 59) (h9 : dt.second ≤ 59) :
    parseTimestamp (formatDateTime dt) = some dt := by
  obtain ⟨y, mo, da, hh, mi, se⟩ := dt
  simp only at h1 h2 h3 h4 h5 h6 h7 h8 h9
  have hda : da ≤ 31 := h6.trans (daysInMonth_le _ _)
  have e1 : digitVal (digitChar (y / 1000 % 10)) = y / 1000 % 10 :=
    digitVal_digitChar _ (by omega)
  have e2 : digitVal (digitChar (y / 100 % 10)) = y / 100 % 10 :=
    digitVal_digitChar _ (by omega)
  have e3 : digitVal (digitChar (y / 10 % 10)) = y / 10 % 10 :=
    digitVal_digitChar _ (by omega)
  have e4 : digitVal (digitChar (y % 10)) = y % 10 :=
    digitVal_digitChar _ (by omega)
  have e5 : digitVal (digitChar (mo / 10 % 10)) = mo / 10 % 10 :=
    digitVal_digitChar _ (by omega)
  have e6 : digitVal (digitChar (mo % 10)) = mo % 10 :=
    digitVal_digitChar _ (by omega)
  have e7 : digitVal (digitChar (da / 10 % 10)) = da / 10 % 10 :=
    digitVal_digitChar _ (by omega)
  have e8 : digitVal (digitChar (da % 10)) = da % 10 :=
    digitVal_digitChar _ (by omega)
  have e9 : digitVal (digitChar (hh / 10 % 10)) = hh / 10 % 10 :=
    digitVal_digitChar _ (by omega)
  have e10 : digitVal (digitChar (hh % 10)) = hh % 10 :=
    digitVal_digitChar _ (by omega)
  have e11 : digitVal (digitChar (mi / 10 % 10)) = mi / 10 % 10 :=
    digitVal_digitChar _ (by omega)
  have e12 : digitVal (digitChar (mi % 10)) = mi % 10 :=
    digitVal_digitChar _ (by omega)
  have e13 : digitVal (digitChar (se / 10 % 10)) = se / 10 % 10 :=
    digitVal_digitChar _ (by omega)
  have e14 : digitVal (digitChar (se % 10)) = se % 10 :=
    digitVal_digitChar _ (by omega)
  have ry : 1000 * (y / 1000 % 10) + 100 * (y / 100 % 10) + 10 * (y / 10 % 10) + y % 10 = y := by
    omega
  have rm : 10 * (mo / 10 % 10) + mo % 10 = mo := by omega
  have rd : 10 * (da / 10 % 10) + da % 10 = da := by omega
  have rh : 10 * (hh / 10 % 10) + hh % 10 = hh := by omega
  have rmi : 10 * (mi / 10 % 10) + mi % 10 = mi := by omega
  have rs : 10 * (se / 10 % 10) + se % 10 = se := by omega
  simp only [formatDateTime, pad4, pad2, List.cons_append, List.nil_append,
    parseTimestamp]
  rw [if_pos]
  · simp only [e1, e2, e3, e4, e5, e6, e7, e8, e9, e10, e11, e12, e13, e14,
      ry, rm, rd, rh, rmi, rs]
    rw [if_pos]
    exact ⟨h1, h2, h3, h4, h5, h6, h7, h8, h9⟩
  · refine ⟨?_, ?_, ?_, ?_, ?_, ?_, ?_, ?_, ?_, ?_, ?_, ?_, ?_, ?_, trivial,
      trivial, trivial, trivial, trivial⟩ <;>
      exact isDigit_digitChar _ (by omega)

/-- On the epoch range of `datetime` years up to 9999 (253402300799 is
9999-12-31 23:59:59 UTC, the largest value `datetime.fromtimestamp` accepts),
every field of the converted date-time is in range. -/
theorem epochToDateTime_valid (ts : ℕ) (h : ts ≤ 253402300799) :
    1 ≤ (epochToDateTime ts).year ∧ (epochToDateTime ts).year ≤ 9999 ∧
      1 ≤ (epochToDateTime ts).month ∧ (epochToDateTime ts).month ≤ 12 ∧
      1 ≤ (epochToDateTime ts).day ∧
      (epochToDateTime ts).day ≤
        daysInMonth (epochToDateTime ts).year (epochToDateTime ts).month ∧
      (epochToDateTime ts).hour ≤ 23 ∧ (epochToDateTime ts).minute ≤ 59 ∧
      (epochToDateTime ts).second ≤ 59 := by
  rcases hc : civilFromDays (ts / 86400) with ⟨y, m, d⟩
  have hf := civilFromDays_fields (ts / 86400) y m d (by omega) hc
  simp only [epochToDateTime, hc]
  exact ⟨hf.1, hf.2.1, hf.2.2.1, hf.2.2.2.1, hf.2.2.2.2.1, hf.2.2.2.2.2,
    by omega, by omega, by omega⟩

theorem rowOfMessage_sampleB :
    rowOfMessage sampleInfoB = some sampleStoredRowB := by
  simp [rowOfMessage, sampleInfoB, sampleGoodInfo, sampleStoredRowB,
    sampleStoredRow, parseTimestamp_sample, wheelchairFromCode]

/-! ## Claim C1 — commit ordering at the Subscriber/Committer -/

/-- C1 counterexample: with a connection and a write that fails, the
persistence call reports failure internally (`.2 = false`), nothing is
persisted, and yet the Committer commits the message's offset: the consumer
position advances past a message whose persistence did not succeed. -/
theorem consume_commit_despite_failed_write_cx :
    (insert_vehicle_data true (fun _ => true) [] [sampleGoodInfo]).2 = false ∧
      (consumeStep true (fun _ => true) ⟨[], none⟩ 7
          (.single sampleGoodInfo)).committed = some 7 ∧
      (consumeStep true (fun _ => true) ⟨[], none⟩ 7
          (.single sampleGoodInfo)).table = [] :=
  ⟨rfl, rfl, rfl⟩

/-- C1 (amended): for every pulled message whose payload deserializes, the
Committer issues the synchronous offset commit right after the persistence
call returns, regardless of whether any write inside that call failed —
`insert_vehicle_data` catches write failures internally and returns normally,
so a failure never surfaces to the Committer and the commit is not withheld.
Only a payload that fails deserialization leaves the state (table and
committed offset) unchanged. -/
theorem consume_commit_unconditional (connOk : Bool) (wf : ℕ → Bool)
    (st : ConsumerState) (off : ℕ) (p : MessagePayload)
    (msgs : List VehicleInfo) (h : payloadToList p = some msgs) :
    (consumeStep connOk wf st off p).committed = some off ∧
      (consumeStep connOk wf st off p).table =
        (insert_vehicle_data connOk wf st.table msgs).1 ∧
      consumeStep connOk wf st off MessagePayload.undecodable = st := by
  refine ⟨?_, ?_, ?_⟩
  · simp [consumeStep, h]
  · simp [consumeStep, h]
  · simp [consumeStep, payloadToList]

theorem consume_commit_unconditional_witness :
    (consumeStep true (fun _ => true) ⟨[], none⟩ 3
        (.single sampleGoodInfo)).committed = some 3 ∧
      (consumeStep true (fun _ => true) ⟨[], none⟩ 3
          (.single sampleGoodInfo)).table =
        (insert_vehicle_data true (fun _ => true)
            (ConsumerState.table ⟨[], none⟩) [sampleGoodInfo]).1 ∧
      consumeStep true (fun _ => true) ⟨[], none⟩ 3
          MessagePayload.undecodable = ⟨[], none⟩ :=
  consume_commit_unconditional true (fun _ => true) ⟨[], none⟩ 3
    (.single sampleGoodInfo) [sampleGoodInfo] rfl

/-! ## Claim C2 — no batch atomicity in the Store Writer -/

/-- C2 counterexample: two observations, the second write fails.  The call
reports the failure internally, but the durable table is not left unchanged:
the first observation's row is already committed (per-statement autocommit). -/
theorem insert_partial_commit_cx :
    (insert_vehicle_data true (fun i => i == 1) []
        [sampleGoodInfo, sampleInfoB]).2 = false ∧
      (insert_vehicle_data true (fun i => i == 1) []
          [sampleGoodInfo, sampleInfoB]).1 = [sampleStoredRow] ∧
      [sampleStoredRow] ≠ ([] : Table) :=
  ⟨rfl, rfl, by simp⟩

/-- The write loop after its first failing step: writes before the failure
stay applied, the remaining writes are skipped, and failure is recorded. -/
theorem insertLoop_aborted (wf : ℕ → Bool) (v : VehicleInfo)
    (post : List VehicleInfo) :
    ∀ (pre : List VehicleInfo) (t : Table) (i : ℕ),
      (∀ j, j < pre.length → wf (i + j) = false) →
      (∀ u ∈ pre, (rowOfMessage u).isSome) →
      (wf (i + pre.length) = true ∨ rowOfMessage v = none) →
      insertLoop wf t i (pre ++ v :: post) =
        (pre.foldl
          (fun acc u =>
            match rowOfMessage u with
            | some r => upsertRow acc r
            | none => acc) t, false) := by
  intro pre
  induction pre with
  | nil =>
      intro t i hw hp hv
      simp only [List.nil_append, List.foldl_nil]
      cases hr : rowOfMessage v with
      | none => simp [insertLoop, hr]
      | some r =>
          have hwi : wf i = true := by
            cases hv with
            | inl h => simpa using h
            | inr h => rw [hr] at h; simp at h
          simp [insertLoop, hr, hwi]
  | cons u pre ih =>
      intro t i hw hp hv
      have hu := hp u (by simp)
      cases hr : rowOfMessage u with
      | none => rw [hr] at hu; simp at hu
      | some r =>
          have hw0 : wf i = false := by
            have h0 := hw 0 (by simp)
            simpa using h0
          simp only [List.cons_append, insertLoop, hr, hw0, Bool.false_eq_true,
            if_false, List.foldl_cons]
          refine ih (upsertRow t r) (i + 1) ?_ ?_ ?_
          · intro j hj
            have h2 := hw (j + 1) (by simpa using Nat.succ_lt_succ hj)
            have h3 : i + (j + 1) = i + 1 + j := by omega
            rw [h3] at h2
            exact h2
          · intro w hw2
            exact hp w (by simp [hw2])
          · cases hv with
            | inl h =>
                left
                have h3 : i + (u :: pre).length = i + 1 + pre.length := by
                  simp
                  omega
                rw [h3] at h
                exact h
            | inr h => right; exact h

/-- C2 (amended): when the write of one observation in a call fails, the
remaining writes of that call are aborted and the failure is recorded, but
there is no batch-level atomicity: the connection autocommits every statement,
so the durable table keeps the rows of all observations that preceded the
failing one. -/
theorem insert_vehicle_data_partial_commit (wf : ℕ → Bool) (t : Table)
    (pre : List VehicleInfo) (v : VehicleInfo) (post : List VehicleInfo)
    (h1 : ∀ j, j < pre.length → wf j = false)
    (h2 : ∀ u ∈ pre, (rowOfMessage u).isSome)
    (h3 : wf pre.length = true ∨ rowOfMessage v = none) :
    insert_vehicle_data true wf t (pre ++ v :: post) =
      (appliedRows t pre, false) := by
  show insertLoop wf t 0 (pre ++ v :: post) = (appliedRows t pre, false)
  exact insertLoop_aborted wf v post pre t 0 (by simpa using h1) h2
    (by simpa using h3)

theorem insert_vehicle_data_partial_commit_witness :
    insert_vehicle_data true (fun i => i == 1) []
        ([sampleGoodInfo] ++ sampleInfoB :: []) =
      (appliedRows [] [sampleGoodInfo], false) :=
  insert_vehicle_data_partial_commit (fun i => i == 1) [] [sampleGoodInfo]
    sampleInfoB [] (by decide) (by decide) (Or.inl (by decide))

/-! ## Claim C3 — which columns the conflict update overwrites -/

/-- C3 counterexample: after upserting `rowB` over `rowA` (same primary key,
different `trip_id`), the stored row keeps `rowA`'s `trip_id` rather than
taking `rowB`'s: not every non-key column is overwritten. -/
theorem upsert_trip_id_retained_cx :
    (findRow (upsertRow (upsertRow [] rowA) rowB) rowB.vehicle_id
          rowB.timestamp).map Row.trip_id = some ("T1") ∧
      rowB.trip_id = "T2" ∧ ("T1" : String) ≠ "T2" :=
  ⟨rfl, rfl, by decide⟩

/-- Upserting over an existing row with the same key stores the conflict
update of that row. -/
theorem findRow_upsertRow (t : Table) (r old : Row) :
    findRow t r.vehicle_id r.timestamp = some old →
      findRow (upsertRow t r) r.vehicle_id r.timestamp =
        some (applyConflictUpdate old r) := by
  induction t with
  | nil => intro h; simp [findRow] at h
  | cons a rest ih =>
      intro h
      by_cases hk : keyMatches a r.vehicle_id r.timestamp = true
      · rw [findRow, if_pos hk] at h
        obtain rfl := Option.some.inj h
        have h1 : upsertRow (a :: rest) r = applyConflictUpdate a r :: rest := by
          simp only [upsertRow, hk, if_true]
        have hk2 : keyMatches (applyConflictUpdate a r) r.vehicle_id r.timestamp = true := hk
        rw [h1, findRow, if_pos hk2]
      · rw [findRow, if_neg hk] at h
        have h1 : upsertRow (a :: rest) r = a :: upsertRow rest r := by
          simp only [upsertRow]
          rw [if_neg hk]
        rw [h1, findRow, if_neg hk]
        exact ih h

/-- C3 (amended): upserting an observation over an existing row with the same
(`vehicle_id`, `timestamp`) key overwrites the columns named in the `DO
UPDATE SET` list — latitude, longitude, bearing, speed, current_stop_sequence,
current_status, stop_id, vehicle_label, license_plate, wheelchair_accessible —
with the new observation's values, while the non-key columns `trip_id` and
`route_id` keep the earlier row's values (they are absent from the SET
list). -/
theorem upsert_overwrites_all_but_trip_route (t : Table) (r old : Row)
    (h : findRow t r.vehicle_id r.timestamp = some old) :
    findRow (upsertRow t r) r.vehicle_id r.timestamp =
        some (applyConflictUpdate old r) ∧
      (applyConflictUpdate old r).latitude = r.latitude ∧
      (applyConflictUpdate old r).longitude = r.longitude ∧
      (applyConflictUpdate old r).bearing = r.bearing ∧
      (applyConflictUpdate old r).speed = r.speed ∧
      (applyConflictUpdate old r).current_stop_sequence = r.current_stop_sequence ∧
      (applyConflictUpdate old r).current_status = r.current_status ∧
      (applyConflictUpdate old r).stop_id = r.stop_id ∧
      (applyConflictUpdate old r).vehicle_label = r.vehicle_label ∧
      (applyConflictUpdate old r).license_plate = r.license_plate ∧
      (applyConflictUpdate old r).wheelchair_accessible = r.wheelchair_accessible ∧
      (applyConflictUpdate old r).trip_id = old.trip_id ∧
      (applyConflictUpdate old r).route_id = old.route_id :=
  ⟨findRow_upsertRow t r old h, rfl, rfl, rfl, rfl, rfl, rfl, rfl, rfl, rfl,
    rfl, rfl, rfl⟩

theorem upsert_overwrites_all_but_trip_route_witness :
    findRow (upsertRow [rowA] rowB) rowB.vehicle_id rowB.timestamp =
        some (applyConflictUpdate rowA rowB) ∧
      (applyConflictUpdate rowA rowB).latitude = rowB.latitude ∧
      (applyConflictUpdate rowA rowB).longitude = rowB.longitude ∧
      (applyConflictUpdate rowA rowB).bearing = rowB.bearing ∧
      (applyConflictUpdate rowA rowB).speed = rowB.speed ∧
      (applyConflictUpdate rowA rowB).current_stop_sequence = rowB.current_stop_sequence ∧
      (applyConflictUpdate rowA rowB).current_status = rowB.current_status ∧
      (applyConflictUpdate rowA rowB).stop_id = rowB.stop_id ∧
      (applyConflictUpdate rowA rowB).vehicle_label = rowB.vehicle_label ∧
      (applyConflictUpdate rowA rowB).license_plate = rowB.license_plate ∧
      (applyConflictUpdate rowA rowB).wheelchair_accessible = rowB.wheelchair_accessible ∧
      (applyConflictUpdate rowA rowB).trip_id = rowA.trip_id ∧
      (applyConflictUpdate rowA rowB).route_id = rowA.route_id :=
  upsert_overwrites_all_but_trip_route [rowA] rowB rowA rfl

/-! ## Claim C6 — idempotence of the upsert -/

/-- C6: upserting the same observation value twice for the same
(`vehicle_id`, `timestamp`) key leaves the table in the same final state as
upserting it once: the second execution hits the conflict branch and
overwrites every updated column with the values it already has. -/
theorem upsertRow_idempotent (t : Table) (r : Row) :
    upsertRow (upsertRow t r) r = upsertRow t r := by
  induction t with
  | nil =>
      simp only [upsertRow]
      rw [if_pos]
      · rfl
      · simp [keyMatches]
  | cons old rest ih =>
      by_cases hk : keyMatches old r.vehicle_id r.timestamp = true
      · have h1 : upsertRow (old :: rest) r = applyConflictUpdate old r :: rest := by
          simp only [upsertRow, hk, if_true]
        rw [h1]
        simp only [upsertRow]
        have hk2 : keyMatches (applyConflictUpdate old r) r.vehicle_id r.timestamp = true := hk
        rw [if_pos hk2]
        rfl
      · have h1 : upsertRow (old :: rest) r = old :: upsertRow rest r := by
          simp only [upsertRow]
          rw [if_neg hk]
        rw [h1]
        simp only [upsertRow]
        rw [if_neg hk, ih]

/-! ## Claim C4 — envelope parse failure at the Poller boundary -/

/-- C4 counterexample: a payload whose envelope fails structural validation
makes `fetch_data` raise (the protobuf error matches no handler), and the
raised exception terminates the Poller loop instead of letting it continue. -/
theorem fetch_decode_error_escapes_cx :
    fetch_data (.payload none) = .raises ∧
      pollerLoopContinues (fetch_data (.payload none)) = false :=
  ⟨rfl, rfl⟩

/-- C4 (amended): only network/HTTP errors are caught by `fetch_data` and
yield an empty result with the Poller loop continuing; a payload whose
envelope fails structural validation raises an uncaught exception past the
fetch-decode function, terminating the Poller loop.  An envelope that parses
but reports itself uninitialized yields the empty result. -/
theorem fetch_data_error_boundary :
    fetch_data .requestError = .returns [] ∧
      pollerLoopContinues (fetch_data .requestError) = true ∧
      fetch_data (.payload none) = .raises ∧
      pollerLoopContinues (fetch_data (.payload none)) = false ∧
      ∀ feed : FeedMessage, feed.initialized = false →
        fetch_data (.payload (some feed)) = .returns [] := by
  refine ⟨rfl, rfl, rfl, rfl, ?_⟩
  intro feed h
  simp [fetch_data, decodeFeed, h]

theorem fetch_data_error_boundary_witness :
    fetch_data (.payload (some { initialized := false, entity := [] })) =
      .returns [] :=
  fetch_data_error_boundary.2.2.2.2 { initialized := false, entity := [] } rfl

/-! ## Claim C5 — shape of the published message value -/

/-- C5 counterexample: in the published JSON value of the spec's scenario
observation (wheelchair code 2, which the spec says maps to boolean true on
the wire), the `wheelchair_accessible` member is a JSON number, not a JSON
boolean. -/
theorem message_wheelchair_not_boolean_cx :
    (jsonField (vehicleMessageValue sampleGoodInfo)
          ("wheelchair_accessible")).map Json.isBool = some false ∧
      (jsonField (vehicleMessageValue sampleGoodInfo)
          ("wheelchair_accessible")).map Json.isNum = some true ∧
      sampleGoodInfo.wheelchair_accessible = 2 :=
  ⟨rfl, rfl, rfl⟩

/-- C5 (amended): for every observation emitted by the Decoder, the published
message value is a JSON object with exactly the fourteen VehicleObservation
fields in order, `timestamp` rendered as the UTC `"%Y-%m-%d %H:%M:%S"` string
with no zone suffix — but `wheelchair_accessible` is carried as the
feed-native numeric tri-state code (the boolean derivation happens only later,
in the Store Writer), not as a boolean. -/
theorem message_value_shape (v : VehiclePosition) (info : VehicleInfo)
    (h : extract_vehicle_info v = some info) :
    jsonFieldNames (vehicleMessageValue info) =
        ["trip_id", "route_id", "latitude", "longitude", "bearing", "speed",
         "current_stop_sequence", "current_status", "timestamp", "stop_id",
         "vehicle_id", "vehicle_label", "license_plate",
         "wheelchair_accessible"] ∧
      jsonField (vehicleMessageValue info) ("timestamp") =
        some (Json.str (formatTimestamp v.timestamp)) ∧
      jsonField (vehicleMessageValue info) ("wheelchair_accessible") =
        some (Json.num (v.vehicle.wheelchair_accessible : ℚ)) := by
  rw [extract_vehicle_info] at h
  by_cases hr : v.trip.route_id = "9999"
  · rw [if_pos hr] at h
    exact absurd h (by simp)
  · rw [if_neg hr] at h
    obtain rfl := Option.some.inj h
    exact ⟨rfl, rfl, rfl⟩

theorem message_value_shape_witness :
    jsonFieldNames (vehicleMessageValue sampleGoodInfo) =
        ["trip_id", "route_id", "latitude", "longitude", "bearing", "speed",
         "current_stop_sequence", "current_status", "timestamp", "stop_id",
         "vehicle_id", "vehicle_label", "license_plate",
         "wheelchair_accessible"] ∧
      jsonField (vehicleMessageValue sampleGoodInfo) ("timestamp") =
        some (Json.str (formatTimestamp sampleVehicle.timestamp)) ∧
      jsonField (vehicleMessageValue sampleGoodInfo) ("wheelchair_accessible") =
        some (Json.num (sampleVehicle.vehicle.wheelchair_accessible : ℚ)) :=
  message_value_shape sampleVehicle sampleGoodInfo extract_vehicle_info_sample

/-! ## Claim C7 — the sentinel route never reaches the Decoder's output -/

/-- C7: whenever `fetch_data` returns normally, no observation in its result
has the reserved sentinel `route_id = "9999"`: the extractor yields nothing
for such an entity, so the decode result contains no sentinel observation. -/
theorem fetch_data_no_sentinel_route (resp : FetchResponse)
    (l : List VehicleInfo) (h : fetch_data resp = .returns l)
    (info : VehicleInfo) (hm : info ∈ l) : info.route_id ≠ "9999" := by
  cases resp with
  | requestError =>
      injection h with h
      subst h
      simp at hm
  | payload op =>
      cases op with
      | none => exact absurd h (by simp [fetch_data])
      | some feed =>
          injection h with h
          subst h
          rw [decodeFeed] at hm
          by_cases hi : feed.initialized = true
          · rw [if_pos hi] at hm
            obtain ⟨e, he, hbind⟩ := List.mem_filterMap.mp hm
            obtain ⟨v, hv, hev⟩ := Option.bind_eq_some.mp hbind
            rw [extract_vehicle_info] at hev
            by_cases hr : v.trip.route_id = "9999"
            · rw [if_pos hr] at hev
              exact absurd hev (by simp)
            · rw [if_neg hr] at hev
              obtain rfl := Option.some.inj hev
              exact hr
          · rw [if_neg hi] at hm
            simp at hm

theorem fetch_data_no_sentinel_route_witness :
    sampleGoodInfo.route_id ≠ "9999" :=
  fetch_data_no_sentinel_route (.payload (some sampleFeed)) [sampleGoodInfo]
    (by show FetchResult.returns (decodeFeed sampleFeed) =
          FetchResult.returns [sampleGoodInfo]
        rw [decodeFeed_sample])
    sampleGoodInfo (by simp)

/-! ## Claim C8 — the stored wheelchair boolean -/

/-- C8: for every observation the Store Writer turns into a row, the stored
`wheelchair_accessible` boolean is true exactly when the feed-native tri-state
code carried in the message equals 2, and false for every other code. -/
theorem stored_wheelchair_iff_code_two (v : VehicleInfo) (r : Row)
    (h : rowOfMessage v = some r) :
    (r.wheelchair_accessible = true ↔ v.wheelchair_accessible = 2) := by
  rw [rowOfMessage] at h
  cases hp : parseTimestamp v.timestamp with
  | none => rw [hp] at h; exact absurd h (by simp)
  | some dt =>
      rw [hp] at h
      obtain rfl := Option.some.inj h
      show (wheelchairFromCode v.wheelchair_accessible = true ↔ _)
      rw [wheelchairFromCode]
      split_ifs with hw
      · simp [hw]
      · simp [hw]

theorem stored_wheelchair_iff_code_two_witness :
    (sampleStoredRow.wheelchair_accessible = true ↔
      sampleGoodInfo.wheelchair_accessible = 2) :=
  stored_wheelchair_iff_code_two sampleGoodInfo sampleStoredRow
    rowOfMessage_sample

/-! ## Claim C9 — the m/s → km/h speed conversion -/

/-- C9: for every vehicle entity the Decoder accepts, the `speed` field of the
resulting observation equals the feed-native speed times 3.6 (exactly, in the
rational model of Python floats). -/
theorem extract_speed_is_kmh (v : VehiclePosition) (info : VehicleInfo)
    (h : extract_vehicle_info v = some info) :
    info.speed = v.position.speed * 3.6 := by
  rw [extract_vehicle_info] at h
  by_cases hr : v.trip.route_id = "9999"
  · rw [if_pos hr] at h
    exact absurd h (by simp)
  · rw [if_neg hr] at h
    obtain rfl := Option.some.inj h
    rfl

theorem extract_speed_is_kmh_witness :
    sampleGoodInfo.speed = sampleVehicle.position.speed * 3.6 :=
  extract_speed_is_kmh sampleVehicle sampleGoodInfo extract_vehicle_info_sample

/-! ## Claim C10 — the timestamp format/parse round trip -/

/-- C10: for every feed-native epoch-seconds timestamp the Decoder can format
(everything `datetime.fromtimestamp` accepts, i.e. up to 9999-12-31 23:59:59
UTC = 253402300799 — beyond that the Decoder raises and never emits a
message), parsing the formatted string with the same `"%Y-%m-%d %H:%M:%S"`
format in the Store Writer succeeds and recovers exactly the civil UTC
date-time of that instant at second precision. -/
theorem timestamp_format_parse_roundtrip (ts : ℕ) (h : ts ≤ 253402300799) :
    parseTimestamp (formatTimestamp ts) = some (epochToDateTime ts) := by
  have hv := epochToDateTime_valid ts h
  rw [formatTimestamp]
  exact parseTimestamp_formatDateTime (epochToDateTime ts) hv.1 hv.2.1
    hv.2.2.1 hv.2.2.2.1 hv.2.2.2.2.1 hv.2.2.2.2.2.1 hv.2.2.2.2.2.2.1
    hv.2.2.2.2.2.2.2.1 hv.2.2.2.2.2.2.2.2

theorem timestamp_format_parse_roundtrip_witness :
    (1700000000 : ℕ) ≤ 253402300799 ∧
      parseTimestamp (formatTimestamp 1700000000) =
        some (epochToDateTime 1700000000) :=
  ⟨by norm_num, timestamp_format_parse_roundtrip 1700000000 (by norm_num)⟩
